import Mathlib

/-!
Verification of the Bookmosphere PDF→EPUB conversion adapter
(`scripts/convert_pdf.py`).

The adapter is a command-line program: it reads one JSON argument,
extracts `pdf_path`, `epub_path`, `title` and `author`, invokes the
external library routine `transform_epub` with fixed policy options,
and reports the outcome as one JSON line plus a process exit code.

The embedding below models the adapter's `main` function as a pure
function of:
  * the optional first command-line argument (`none` when the process
    received no user argument, i.e. `len(sys.argv) < 2`),
  * an oracle for Python's `json.loads` (the standard library parser is
    external code: the oracle returns either the parsed value or the
    stringified `JSONDecodeError`),
  * an oracle for the external conversion routine `transform_epub`
    (returning success, or the stringified exception it raised).
The result records every line written (with its stream), the exit code,
and the list of conversion calls performed.
-/

namespace ConvertPdf

/-- JSON values as produced by Python's `json.loads`.  An `obj` is a
parsed dict given as an association list with distinct keys (Python's
parser keeps the last duplicate, so the parsed dict has unique keys);
numbers are modelled as integers, which covers every value the adapter
inspects (it only ever forwards them). -/
inductive Json where
  | null : Json
  | bool : Bool → Json
  | num : Int → Json
  | str : String → Json
  | arr : List Json → Json
  | obj : List (String × Json) → Json
deriving Repr

/-- First association of a key in a parsed dict. -/
def assocFind (k : String) : List (String × Json) → Option Json
  | [] => none
  | (k₂, v) :: rest => if k₂ = k then some v else assocFind k rest

/-- Key lookup on a JSON value: `some v` when the value is an object
carrying the key, `none` otherwise. -/
def Json.lookup (j : Json) (k : String) : Option Json :=
  match j with
  | .obj l => assocFind k l
  | _ => none

/-- Python truthiness of a JSON value, as used by
`[author] if author else []`: `None`, `False`, zero, and empty
strings/lists/dicts are falsy. -/
def Json.truthy : Json → Bool
  | .null => false
  | .bool b => b
  | .num n => n != 0
  | .str s => s != ""
  | .arr l => !l.isEmpty
  | .obj l => !l.isEmpty

/-- A single-quote character, used when rendering Python exception
messages. -/
def squote : String := String.singleton (Char.ofNat 39)

/-- `str(e)` for the `KeyError` raised by `args[k]` on a dict missing
`k`: CPython renders it as the `repr` of the key. -/
def keyErrorStr (k : String) : String := squote ++ k ++ squote

/-- `str(e)` for the `TypeError` raised by `args[k]` with a string key
when `args` is not a dict (message text follows CPython). -/
def subscriptTypeError : Json → String
  | .null => squote ++ "NoneType" ++ squote ++ " object is not subscriptable"
  | .bool _ => squote ++ "bool" ++ squote ++ " object is not subscriptable"
  | .num _ => squote ++ "int" ++ squote ++ " object is not subscriptable"
  | .str _ => "string indices must be integers"
  | .arr _ => "list indices must be integers or slices, not str"
  | .obj _ => ""

/-- `str(e)` for the `AttributeError` raised by `args.get(...)` when
`args` is not a dict (unreachable in the adapter, since subscripting
fails first; modelled for faithfulness of the guard structure). -/
def noGetAttrError : Json → String
  | .null => squote ++ "NoneType" ++ squote ++ " object has no attribute " ++ squote ++ "get" ++ squote
  | .bool _ => squote ++ "bool" ++ squote ++ " object has no attribute " ++ squote ++ "get" ++ squote
  | .num _ => squote ++ "int" ++ squote ++ " object has no attribute " ++ squote ++ "get" ++ squote
  | .str _ => squote ++ "str" ++ squote ++ " object has no attribute " ++ squote ++ "get" ++ squote
  | .arr _ => squote ++ "list" ++ squote ++ " object has no attribute " ++ squote ++ "get" ++ squote
  | .obj _ => ""

/-- Python `args[k]`: yields the value, or raises (`KeyError` on a dict
missing the key, `TypeError` on a non-dict). -/
def getItem (j : Json) (k : String) : Except String Json :=
  match j with
  | .obj l =>
    match assocFind k l with
    | some v => .ok v
    | none => .error (keyErrorStr k)
  | _ => .error (subscriptTypeError j)

/-- Python `args.get(k, d)`: the value when present, the default when
absent; raises `AttributeError` on a non-dict. -/
def dictGet (j : Json) (k : String) (d : Json) : Except String Json :=
  match j with
  | .obj l => .ok ((assocFind k l).getD d)
  | _ => .error (noGetAttrError j)

/-- The full argument tuple of one `transform_epub` invocation: the four
request-derived values plus the five fixed policy options. -/
structure ConvCall where
  pdf_path : Json
  epub_path : Json
  title : Json
  authors : List Json
  ocr_size : String
  includes_cover : Bool
  includes_footnotes : Bool
  ignore_pdf_errors : Bool
  ignore_ocr_errors : Bool
deriving Repr

/-- Outcome of `json.loads`: the parsed value, or the stringified
`json.JSONDecodeError`. -/
inductive ParseResult where
  | ok : Json → ParseResult
  | err : String → ParseResult

/-- Outcome of one `transform_epub` call: normal return, or the
stringified exception it raised. -/
inductive ConvResult where
  | ok : ConvResult
  | err : String → ConvResult
deriving Repr, DecidableEq

/-- Output streams of the process. -/
inductive Stream where
  | stdout : Stream
  | stderr : Stream
deriving Repr, DecidableEq

/-- Observable result of one adapter invocation: the lines written (each
with its stream, newline omitted), the process exit code, and the list
of conversion calls performed. -/
structure RunResult where
  outputs : List (Stream × String)
  exitCode : Nat
  calls : List ConvCall

/-- Escape one character the way `json.dumps` (default options,
`ensure_ascii=True`) does inside a string literal: backslash, double
quote, the named control escapes, `\uXXXX` for other control characters
and for all non-ASCII characters (surrogate pairs above U+FFFF). -/
def hexDigit (n : Nat) : Char :=
  if n < 10 then Char.ofNat (48 + n) else Char.ofNat (87 + n)

/-- Four-digit lowercase hex rendering used by `\uXXXX` escapes. -/
def hex4 (n : Nat) : String :=
  String.mk [hexDigit (n / 4096 % 16), hexDigit (n / 256 % 16),
             hexDigit (n / 16 % 16), hexDigit (n % 16)]

/-- `json.dumps` escaping of a single character. -/
def escapeChar (c : Char) : String :=
  if c = Char.ofNat 34 then "\\\""
  else if c = Char.ofNat 92 then "\\\\"
  else if c = Char.ofNat 10 then "\\n"
  else if c = Char.ofNat 9 then "\\t"
  else if c = Char.ofNat 13 then "\\r"
  else if c = Char.ofNat 8 then "\\b"
  else if c = Char.ofNat 12 then "\\f"
  else if c.toNat < 32 then "\\u" ++ hex4 c.toNat
  else if c.toNat < 128 then String.singleton c
  else if c.toNat < 65536 then "\\u" ++ hex4 c.toNat
  else "\\u" ++ hex4 (55296 + (c.toNat - 65536) / 1024) ++
       "\\u" ++ hex4 (56320 + (c.toNat - 65536) % 1024)

/-- `json.dumps` of a Python string. -/
def pyJsonStr (s : String) : String :=
  "\"" ++ String.join (s.toList.map escapeChar) ++ "\""

/-- `json.dumps({"success": True})`. -/
def successLine : String := "\x7b\"success\": true\x7d"

/-- `json.dumps({"success": False, "error": msg})`. -/
def failLine (msg : String) : String :=
  "\x7b\"success\": false, \"error\": " ++ pyJsonStr msg ++ "\x7d"

/-- Lines 25–31 of the adapter: extract `pdf_path` and `epub_path` by
subscripting, `title` and `author` via `.get` with defaults, build the
authors list by truthiness, and assemble the `transform_epub` argument
tuple with the five fixed policy options of lines 33–45.  Any raised
exception surfaces as `.error` with its stringified message. -/
def extractCall (args : Json) : Except String ConvCall :=
  match getItem args "pdf_path" with
  | .error m => .error m
  | .ok pdf_path =>
  match getItem args "epub_path" with
  | .error m => .error m
  | .ok epub_path =>
  match dictGet args "title" (Json.str "Untitled") with
  | .error m => .error m
  | .ok title =>
  match dictGet args "author" (Json.str "") with
  | .error m => .error m
  | .ok author =>
  .ok { pdf_path := pdf_path
        epub_path := epub_path
        title := title
        authors := if author.truthy then [author] else []
        ocr_size := "small"
        includes_cover := true
        includes_footnotes := true
        ignore_pdf_errors := true
        ignore_ocr_errors := true }

/-- The body of the `try:` block after `json.loads`: field extraction
followed by the `transform_epub` call.  Returns the list of conversion
calls performed together with the block's outcome (normal completion,
or the stringified exception that escaped to the handler). -/
def tryBody (args : Json) (convert : ConvCall → ConvResult) :
    List ConvCall × Except String Unit :=
  match extractCall args with
  | .error m => ([], .error m)
  | .ok call =>
    match convert call with
    | .ok => ([call], .ok ())
    | .err m => ([call], .error m)

/-- The adapter's `main`: with no user argument it prints the
no-arguments error to stdout and exits 1; otherwise it parses the
argument, runs the try-block, and either prints the success line to
stdout with exit 0, or — on a parse error, extraction error, or
conversion exception — prints the failure line to stderr and exits 1. -/
def main (argv1 : Option String) (loads : String → ParseResult)
    (convert : ConvCall → ConvResult) : RunResult :=
  match argv1 with
  | none =>
    { outputs := [(.stdout, failLine "No arguments provided")]
      exitCode := 1
      calls := [] }
  | some s =>
    match loads s with
    | .err m =>
      { outputs := [(.stderr, failLine m)], exitCode := 1, calls := [] }
    | .ok args =>
      match tryBody args convert with
      | (cs, .ok ()) =>
        { outputs := [(.stdout, successLine)], exitCode := 0, calls := cs }
      | (cs, .error m) =>
        { outputs := [(.stderr, failLine m)], exitCode := 1, calls := cs }

/-- The argument tuple `extractCall` assembles from a parsed dict `l`
when both required keys are present. -/
def callOf (l : List (String × Json)) (p e : Json) : ConvCall :=
  { pdf_path := p
    epub_path := e
    title := (assocFind "title" l).getD (Json.str "Untitled")
    authors :=
      if ((assocFind "author" l).getD (Json.str "")).truthy
      then [(assocFind "author" l).getD (Json.str "")] else []
    ocr_size := "small"
    includes_cover := true
    includes_footnotes := true
    ignore_pdf_errors := true
    ignore_ocr_errors := true }

end ConvertPdf

open ConvertPdf

/-- Helper: `extractCall` succeeds exactly on a dict carrying both
required keys, and the produced call is `callOf`. -/
theorem extract_ok_shape (j : Json) (c : ConvCall)
    (h : extractCall j = Except.ok c) :
    ∃ l, j = Json.obj l ∧
      ∃ p e, assocFind "pdf_path" l = some p ∧
        assocFind "epub_path" l = some e ∧ c = callOf l p e := by
  cases j with
  | null => simp [extractCall, getItem] at h
  | bool b => simp [extractCall, getItem] at h
  | num n => simp [extractCall, getItem] at h
  | str s => simp [extractCall, getItem] at h
  | arr l => simp [extractCall, getItem] at h
  | obj l =>
    refine ⟨l, rfl, ?_⟩
    cases hp : assocFind "pdf_path" l with
    | none => simp [extractCall, getItem, hp] at h
    | some p =>
      cases he : assocFind "epub_path" l with
      | none => simp [extractCall, getItem, hp, he] at h
      | some e =>
        refine ⟨p, e, rfl, rfl, ?_⟩
        simp [extractCall, getItem, dictGet, hp, he] at h
        simp [callOf, ← h]

/-- Helper: a JSON value lacking `pdf_path` or `epub_path` (in
particular any non-object) makes field extraction raise. -/
theorem extract_missing_key (j : Json)
    (h : j.lookup "pdf_path" = none ∨ j.lookup "epub_path" = none) :
    ∃ m, extractCall j = Except.error m := by
  cases j with
  | null => exact ⟨_, rfl⟩
  | bool b => exact ⟨_, rfl⟩
  | num n => exact ⟨_, rfl⟩
  | str s => exact ⟨_, rfl⟩
  | arr l => exact ⟨_, rfl⟩
  | obj l =>
    cases hp : assocFind "pdf_path" l with
    | none =>
      exact ⟨keyErrorStr "pdf_path", by simp [extractCall, getItem, hp]⟩
    | some p =>
      rcases h with h | h
      · simp [Json.lookup, hp] at h
      · simp only [Json.lookup] at h
        exact ⟨keyErrorStr "epub_path", by simp [extractCall, getItem, hp, h]⟩

/-- Helper: exhaustive case analysis of an invocation that received an
argument — the parse-error path, the extraction-error path, the success
path, and the conversion-exception path, each with the exact result it
produces. -/
theorem main_some_cases (s : String) (loads : String → ParseResult)
    (convert : ConvCall → ConvResult) :
    (∃ m, loads s = .err m ∧
      ConvertPdf.main (some s) loads convert =
        ⟨[(.stderr, failLine m)], 1, []⟩) ∨
    (∃ args m, loads s = .ok args ∧ extractCall args = .error m ∧
      ConvertPdf.main (some s) loads convert =
        ⟨[(.stderr, failLine m)], 1, []⟩) ∨
    (∃ args call, loads s = .ok args ∧ extractCall args = .ok call ∧
      convert call = .ok ∧
      ConvertPdf.main (some s) loads convert =
        ⟨[(.stdout, successLine)], 0, [call]⟩) ∨
    (∃ args call m, loads s = .ok args ∧ extractCall args = .ok call ∧
      convert call = .err m ∧
      ConvertPdf.main (some s) loads convert =
        ⟨[(.stderr, failLine m)], 1, [call]⟩) := by
  cases hl : loads s with
  | err m =>
    exact Or.inl ⟨m, rfl, by simp [ConvertPdf.main, hl]⟩
  | ok args =>
    cases hx : extractCall args with
    | error m =>
      exact Or.inr (Or.inl ⟨args, m, rfl, hx, by
        simp [ConvertPdf.main, tryBody, hl, hx]⟩)
    | ok call =>
      cases hc : convert call with
      | ok =>
        exact Or.inr (Or.inr (Or.inl ⟨args, call, rfl, hx, hc, by
          simp [ConvertPdf.main, tryBody, hl, hx, hc]⟩))
      | err m =>
        exact Or.inr (Or.inr (Or.inr ⟨args, call, m, rfl, hx, hc, by
          simp [ConvertPdf.main, tryBody, hl, hx, hc]⟩))

/-- Helper: any conversion call the adapter performs stems from an
argument that parsed successfully and whose field extraction produced
exactly that call. -/
theorem mem_calls_shape (argv1 : Option String) (loads : String → ParseResult)
    (convert : ConvCall → ConvResult) (c : ConvCall)
    (hc : c ∈ (ConvertPdf.main argv1 loads convert).calls) :
    ∃ s args, argv1 = some s ∧ loads s = ParseResult.ok args ∧
      extractCall args = Except.ok c := by
  cases argv1 with
  | none => simp [ConvertPdf.main] at hc
  | some s =>
    rcases main_some_cases s loads convert with
      ⟨m, hl, hm⟩ | ⟨args, m, hl, hx, hm⟩ |
      ⟨args, call, hl, hx, hcv, hm⟩ | ⟨args, call, m, hl, hx, hcv, hm⟩
    · simp [hm] at hc
    · simp [hm] at hc
    · simp [hm] at hc
      subst hc
      exact ⟨s, args, rfl, hl, hx⟩
    · simp [hm] at hc
      subst hc
      exact ⟨s, args, rfl, hl, hx⟩

/-- C1: for every invocation in which the external conversion routine
was called and returned without raising, the adapter emits exactly
`\x7b"success": true\x7d` as a JSON line on standard output and
terminates with exit code 0. -/
theorem C1_success_output (argv1 : Option String)
    (loads : String → ParseResult) (convert : ConvCall → ConvResult)
    (c : ConvCall) (hc : c ∈ (ConvertPdf.main argv1 loads convert).calls)
    (hok : convert c = ConvResult.ok) :
    (ConvertPdf.main argv1 loads convert).outputs =
      [(Stream.stdout, "\x7b\"success\": true\x7d")] ∧
    (ConvertPdf.main argv1 loads convert).exitCode = 0 := by
  cases argv1 with
  | none => simp [ConvertPdf.main] at hc
  | some s =>
    rcases main_some_cases s loads convert with
      ⟨m, hl, hm⟩ | ⟨args, m, hl, hx, hm⟩ |
      ⟨args, call, hl, hx, hcv, hm⟩ | ⟨args, call, m, hl, hx, hcv, hm⟩
    · simp [hm] at hc
    · simp [hm] at hc
    · rw [hm]; exact ⟨rfl, rfl⟩
    · simp [hm] at hc
      subst hc
      rw [hok] at hcv
      exact ConvResult.noConfusion hcv

/-- C2: a malformed argument, a request lacking `pdf_path` or
`epub_path`, or an exception raised by the conversion routine all
surface the same way: one line `\x7b"success": false, "error": m\x7d`
on standard error and exit code 1, with no distinction between the
three causes beyond the message text. -/
theorem C2_failure_paths (s : String) (loads : String → ParseResult)
    (convert : ConvCall → ConvResult)
    (h : (∃ m, loads s = ParseResult.err m) ∨
         (∃ j, loads s = ParseResult.ok j ∧
            (j.lookup "pdf_path" = none ∨ j.lookup "epub_path" = none)) ∨
         (∃ c m, c ∈ (ConvertPdf.main (some s) loads convert).calls ∧
            convert c = ConvResult.err m)) :
    ∃ m, (ConvertPdf.main (some s) loads convert).outputs =
        [(Stream.stderr, failLine m)] ∧
      (ConvertPdf.main (some s) loads convert).exitCode = 1 := by
  rcases main_some_cases s loads convert with
    ⟨m, hl, hm⟩ | ⟨args, m, hl, hx, hm⟩ |
    ⟨args, call, hl, hx, hcv, hm⟩ | ⟨args, call, m, hl, hx, hcv, hm⟩
  · exact ⟨m, by simp [hm]⟩
  · exact ⟨m, by simp [hm]⟩
  · exfalso
    rcases h with ⟨m, hpe⟩ | ⟨j, hj, hmiss⟩ | ⟨c, m, hcm, hce⟩
    · rw [hl] at hpe
      exact ParseResult.noConfusion hpe
    · rw [hl] at hj
      injection hj with hj
      subst hj
      rcases extract_missing_key args hmiss with ⟨m₂, hx₂⟩
      rw [hx] at hx₂
      exact Except.noConfusion hx₂
    · simp [hm] at hcm
      subst hcm
      rw [hce] at hcv
      exact ConvResult.noConfusion hcv
  · exact ⟨m, by simp [hm]⟩

/-- C4: the exit code is always 0 or 1, and it is 0 exactly when a
conversion call was made and returned without raising; every failure
path exits with 1. -/
theorem C4_exit_codes (argv1 : Option String) (loads : String → ParseResult)
    (convert : ConvCall → ConvResult) :
    ((ConvertPdf.main argv1 loads convert).exitCode = 0 ∨
     (ConvertPdf.main argv1 loads convert).exitCode = 1) ∧
    ((ConvertPdf.main argv1 loads convert).exitCode = 0 ↔
      ∃ c ∈ (ConvertPdf.main argv1 loads convert).calls,
        convert c = ConvResult.ok) := by
  cases argv1 with
  | none => simp [ConvertPdf.main]
  | some s =>
    rcases main_some_cases s loads convert with
      ⟨m, hl, hm⟩ | ⟨args, m, hl, hx, hm⟩ |
      ⟨args, call, hl, hx, hcv, hm⟩ | ⟨args, call, m, hl, hx, hcv, hm⟩
    · simp [hm]
    · simp [hm]
    · simp [hm, hcv]
    · simp [hm, hcv]

/-- C3: with zero command-line arguments the adapter emits exactly
`\x7b"success": false, "error": "No arguments provided"\x7d` on standard
output (not standard error) and terminates with exit code 1. -/
theorem C3_no_arguments (loads : String → ParseResult)
    (convert : ConvCall → ConvResult) :
    (ConvertPdf.main none loads convert).outputs =
      [(Stream.stdout,
        "\x7b\"success\": false, \"error\": \"No arguments provided\"\x7d")] ∧
    (ConvertPdf.main none loads convert).exitCode = 1 := by
  constructor
  · show [(Stream.stdout, failLine "No arguments provided")] = _
    have : failLine "No arguments provided" =
        "\x7b\"success\": false, \"error\": \"No arguments provided\"\x7d" := by
      decide
    rw [this]
  · rfl

/-- C8: every invocation — whatever the argument, including valid JSON
whose top level is not an object — produces exactly one of the two JSON
response shapes; no input escapes the handler. -/
theorem C8_always_one_response (argv1 : Option String)
    (loads : String → ParseResult) (convert : ConvCall → ConvResult) :
    ∃ st line, (ConvertPdf.main argv1 loads convert).outputs = [(st, line)] ∧
      (line = successLine ∨ ∃ m, line = failLine m) := by
  cases argv1 with
  | none =>
    exact ⟨Stream.stdout, failLine "No arguments provided", rfl,
      Or.inr ⟨"No arguments provided", rfl⟩⟩
  | some s =>
    rcases main_some_cases s loads convert with
      ⟨m, hl, hm⟩ | ⟨args, m, hl, hx, hm⟩ |
      ⟨args, call, hl, hx, hcv, hm⟩ | ⟨args, call, m, hl, hx, hcv, hm⟩
    · exact ⟨Stream.stderr, failLine m, by simp [hm], Or.inr ⟨m, rfl⟩⟩
    · exact ⟨Stream.stderr, failLine m, by simp [hm], Or.inr ⟨m, rfl⟩⟩
    · exact ⟨Stream.stdout, successLine, by simp [hm], Or.inl rfl⟩
    · exact ⟨Stream.stderr, failLine m, by simp [hm], Or.inr ⟨m, rfl⟩⟩

/-- C10: every invocation writes exactly one response line, to exactly
one of the two streams. -/
theorem C10_single_response_line (argv1 : Option String)
    (loads : String → ParseResult) (convert : ConvCall → ConvResult) :
    ∃ st line, (ConvertPdf.main argv1 loads convert).outputs = [(st, line)] := by
  cases argv1 with
  | none => exact ⟨Stream.stdout, failLine "No arguments provided", rfl⟩
  | some s =>
    rcases main_some_cases s loads convert with
      ⟨m, hl, hm⟩ | ⟨args, m, hl, hx, hm⟩ |
      ⟨args, call, hl, hx, hcv, hm⟩ | ⟨args, call, m, hl, hx, hcv, hm⟩
    · exact ⟨Stream.stderr, failLine m, by simp [hm]⟩
    · exact ⟨Stream.stderr, failLine m, by simp [hm]⟩
    · exact ⟨Stream.stdout, successLine, by simp [hm]⟩
    · exact ⟨Stream.stderr, failLine m, by simp [hm]⟩

/-- Helper: field extraction inspects only the four named keys of a
parsed dict. -/
theorem extract_congr (l₁ l₂ : List (String × Json))
    (hp : assocFind "pdf_path" l₁ = assocFind "pdf_path" l₂)
    (he : assocFind "epub_path" l₁ = assocFind "epub_path" l₂)
    (ht : assocFind "title" l₁ = assocFind "title" l₂)
    (ha : assocFind "author" l₁ = assocFind "author" l₂) :
    extractCall (Json.obj l₁) = extractCall (Json.obj l₂) := by
  simp only [extractCall, getItem, dictGet, hp, he, ht, ha]

/-- C9: two parsed requests that agree on `pdf_path`, `epub_path`,
`title` and `author` (including their absence) but differ in arbitrary
additional keys drive the adapter identically: same conversion call,
same output, same exit code. -/
theorem C9_extra_keys_ignored (l₁ l₂ : List (String × Json))
    (s₁ s₂ : String) (convert : ConvCall → ConvResult)
    (hp : (Json.obj l₁).lookup "pdf_path" = (Json.obj l₂).lookup "pdf_path")
    (he : (Json.obj l₁).lookup "epub_path" = (Json.obj l₂).lookup "epub_path")
    (ht : (Json.obj l₁).lookup "title" = (Json.obj l₂).lookup "title")
    (ha : (Json.obj l₁).lookup "author" = (Json.obj l₂).lookup "author") :
    ConvertPdf.main (some s₁) (fun _ => ParseResult.ok (Json.obj l₁)) convert =
    ConvertPdf.main (some s₂) (fun _ => ParseResult.ok (Json.obj l₂)) convert := by
  simp only [Json.lookup] at hp he ht ha
  have hx := extract_congr l₁ l₂ hp he ht ha
  simp only [ConvertPdf.main, tryBody, hx]

/-- C5: the authors list forwarded to the conversion routine is
`[author]` when the request carries a non-empty string `author`, and is
empty when `author` is absent or the empty string. -/
theorem C5_authors_list (s : String) (loads : String → ParseResult)
    (convert : ConvCall → ConvResult) (j : Json) (c : ConvCall)
    (hj : loads s = ParseResult.ok j)
    (hc : c ∈ (ConvertPdf.main (some s) loads convert).calls) :
    (∀ a : String, j.lookup "author" = some (Json.str a) → a ≠ "" →
      c.authors = [Json.str a]) ∧
    (j.lookup "author" = none → c.authors = []) ∧
    (j.lookup "author" = some (Json.str "") → c.authors = []) := by
  rcases mem_calls_shape (some s) loads convert c hc with ⟨s₂, args, hs, hl, hx⟩
  injection hs with hs
  subst hs
  rw [hj] at hl
  injection hl with hl
  subst hl
  rcases extract_ok_shape j c hx with ⟨l, hjl, p, e, hp, he, hcall⟩
  subst hjl
  subst hcall
  refine ⟨?_, ?_, ?_⟩
  · intro a ha hne
    simp only [Json.lookup] at ha
    simp [callOf, ha, Json.truthy, hne]
  · intro ha
    simp only [Json.lookup] at ha
    simp [callOf, ha, Json.truthy]
  · intro ha
    simp only [Json.lookup] at ha
    simp [callOf, ha, Json.truthy]

/-- C6: the title forwarded to the conversion routine is `"Untitled"`
when the request omits `title`, and the request's own value otherwise. -/
theorem C6_title_default (s : String) (loads : String → ParseResult)
    (convert : ConvCall → ConvResult) (j : Json) (c : ConvCall)
    (hj : loads s = ParseResult.ok j)
    (hc : c ∈ (ConvertPdf.main (some s) loads convert).calls) :
    (j.lookup "title" = none → c.title = Json.str "Untitled") ∧
    (∀ t, j.lookup "title" = some t → c.title = t) := by
  rcases mem_calls_shape (some s) loads convert c hc with ⟨s₂, args, hs, hl, hx⟩
  injection hs with hs
  subst hs
  rw [hj] at hl
  injection hl with hl
  subst hl
  rcases extract_ok_shape j c hx with ⟨l, hjl, p, e, hp, he, hcall⟩
  subst hjl
  subst hcall
  constructor
  · intro ht
    simp only [Json.lookup] at ht
    simp [callOf, ht]
  · intro t ht
    simp only [Json.lookup] at ht
    simp [callOf, ht]

/-- C7: every conversion call the adapter makes carries the five fixed
policy options, whatever the request contained. -/
theorem C7_fixed_policy (argv1 : Option String)
    (loads : String → ParseResult) (convert : ConvCall → ConvResult)
    (c : ConvCall) (hc : c ∈ (ConvertPdf.main argv1 loads convert).calls) :
    c.ocr_size = "small" ∧ c.includes_cover = true ∧
    c.includes_footnotes = true ∧ c.ignore_pdf_errors = true ∧
    c.ignore_ocr_errors = true := by
  rcases mem_calls_shape argv1 loads convert c hc with ⟨s, args, hs, hl, hx⟩
  rcases extract_ok_shape args c hx with ⟨l, hjl, p, e, hp, he, hcall⟩
  subst hcall
  exact ⟨rfl, rfl, rfl, rfl, rfl⟩

/-- Witness for C1: a concrete invocation whose conversion succeeds. -/
theorem C1_success_output_witness :
    (ConvertPdf.main (some "req")
      (fun _ => ParseResult.ok (Json.obj
        [("pdf_path", Json.str "a.pdf"), ("epub_path", Json.str "b.epub")]))
      (fun _ => ConvResult.ok)).outputs =
      [(Stream.stdout, "\x7b\"success\": true\x7d")] ∧
    (ConvertPdf.main (some "req")
      (fun _ => ParseResult.ok (Json.obj
        [("pdf_path", Json.str "a.pdf"), ("epub_path", Json.str "b.epub")]))
      (fun _ => ConvResult.ok)).exitCode = 0 :=
  C1_success_output (some "req") _ _
    (callOf [("pdf_path", Json.str "a.pdf"), ("epub_path", Json.str "b.epub")]
      (Json.str "a.pdf") (Json.str "b.epub"))
    (by exact List.Mem.head _) rfl

/-- Witness for C2: a concrete invocation with a malformed argument. -/
theorem C2_failure_paths_witness :
    ∃ m, (ConvertPdf.main (some "notjson")
        (fun _ => ParseResult.err "Expecting value: line 1 column 1 (char 0)")
        (fun _ => ConvResult.ok)).outputs = [(Stream.stderr, failLine m)] ∧
      (ConvertPdf.main (some "notjson")
        (fun _ => ParseResult.err "Expecting value: line 1 column 1 (char 0)")
        (fun _ => ConvResult.ok)).exitCode = 1 :=
  C2_failure_paths "notjson" _ _
    (Or.inl ⟨"Expecting value: line 1 column 1 (char 0)", rfl⟩)

/-- Witness for C5: a concrete request with author `"Jane Doe"` yields a
one-element authors list. -/
theorem C5_authors_list_witness :
    (callOf [("pdf_path", Json.str "a.pdf"), ("epub_path", Json.str "b.epub"),
             ("author", Json.str "Jane Doe")]
      (Json.str "a.pdf") (Json.str "b.epub")).authors = [Json.str "Jane Doe"] := by
  have h := C5_authors_list "req"
    (fun _ => ParseResult.ok (Json.obj
      [("pdf_path", Json.str "a.pdf"), ("epub_path", Json.str "b.epub"),
       ("author", Json.str "Jane Doe")]))
    (fun _ => ConvResult.ok)
    (Json.obj [("pdf_path", Json.str "a.pdf"), ("epub_path", Json.str "b.epub"),
       ("author", Json.str "Jane Doe")])
    (callOf [("pdf_path", Json.str "a.pdf"), ("epub_path", Json.str "b.epub"),
       ("author", Json.str "Jane Doe")] (Json.str "a.pdf") (Json.str "b.epub"))
    rfl (by exact List.Mem.head _)
  exact h.1 "Jane Doe" rfl (by decide)

/-- Witness for C6: a concrete request omitting `title` yields the
default title `"Untitled"`. -/
theorem C6_title_default_witness :
    (callOf [("pdf_path", Json.str "a.pdf"), ("epub_path", Json.str "b.epub")]
      (Json.str "a.pdf") (Json.str "b.epub")).title = Json.str "Untitled" := by
  have h := C6_title_default "req"
    (fun _ => ParseResult.ok (Json.obj
      [("pdf_path", Json.str "a.pdf"), ("epub_path", Json.str "b.epub")]))
    (fun _ => ConvResult.ok)
    (Json.obj [("pdf_path", Json.str "a.pdf"), ("epub_path", Json.str "b.epub")])
    (callOf [("pdf_path", Json.str "a.pdf"), ("epub_path", Json.str "b.epub")]
      (Json.str "a.pdf") (Json.str "b.epub"))
    rfl (by exact List.Mem.head _)
  exact h.1 rfl

/-- Witness for C7: the call made by a concrete invocation carries the
five fixed policy options. -/
theorem C7_fixed_policy_witness :
    (callOf [("pdf_path", Json.str "a.pdf"), ("epub_path", Json.str "b.epub")]
      (Json.str "a.pdf") (Json.str "b.epub")).ocr_size = "small" ∧
    (callOf [("pdf_path", Json.str "a.pdf"), ("epub_path", Json.str "b.epub")]
      (Json.str "a.pdf") (Json.str "b.epub")).includes_cover = true ∧
    (callOf [("pdf_path", Json.str "a.pdf"), ("epub_path", Json.str "b.epub")]
      (Json.str "a.pdf") (Json.str "b.epub")).includes_footnotes = true ∧
    (callOf [("pdf_path", Json.str "a.pdf"), ("epub_path", Json.str "b.epub")]
      (Json.str "a.pdf") (Json.str "b.epub")).ignore_pdf_errors = true ∧
    (callOf [("pdf_path", Json.str "a.pdf"), ("epub_path", Json.str "b.epub")]
      (Json.str "a.pdf") (Json.str "b.epub")).ignore_ocr_errors = true :=
  C7_fixed_policy (some "req")
    (fun _ => ParseResult.ok (Json.obj
      [("pdf_path", Json.str "a.pdf"), ("epub_path", Json.str "b.epub")]))
    (fun _ => ConvResult.ok)
    (callOf [("pdf_path", Json.str "a.pdf"), ("epub_path", Json.str "b.epub")]
      (Json.str "a.pdf") (Json.str "b.epub"))
    (by exact List.Mem.head _)

/-- Witness for C9: adding an unknown `extra` key leaves the whole run
result unchanged. -/
theorem C9_extra_keys_ignored_witness :
    ConvertPdf.main (some "r1")
      (fun _ => ParseResult.ok (Json.obj
        [("pdf_path", Json.str "a.pdf"), ("epub_path", Json.str "b.epub")]))
      (fun _ => ConvResult.ok) =
    ConvertPdf.main (some "r2")
      (fun _ => ParseResult.ok (Json.obj
        [("pdf_path", Json.str "a.pdf"), ("epub_path", Json.str "b.epub"),
         ("extra", Json.num 1)]))
      (fun _ => ConvResult.ok) :=
  C9_extra_keys_ignored _ _ "r1" "r2" _ rfl rfl rfl rfl
